import Mathlib

/-!
Shallow embedding of the authentication layer of the `ai-factory-manager-bootcamp`
Express backends:

* the "dangun" marketplace variant (`workspace/afm-examples-backend/dangun_01/server.js`),
* the "ecommerce" variant with Kakao OAuth (the unnamed `server.js` of the LUEUR app).

JavaScript request-body fields are modelled as `Option String` (absent = `none`);
JS truthiness of a string field (`!x`) is `jsTruthy`.  The `jsonwebtoken` library is
modelled symbolically: a signed token records its claims, its expiry epoch-second and
the secret that signed it, and verification succeeds exactly when the secret matches
and the clock is strictly before the expiry (jsonwebtoken treats `now >= exp` as
expired).  bcrypt hashing and comparison are abstract function parameters.  The
PostgreSQL users table is a list of records together with the next SERIAL id; the
`UNIQUE` constraints are checked by the insert operations, surfacing as the `23505`
error that the handlers map to HTTP 409.
-/

/-- A primitive JSON value as it appears in the response user views. -/
inductive JPrim where
  | jnull
  | jstr (s : String)
  | jnum (n : Int)
deriving DecidableEq, Repr

/-- A JSON object sent as a response `data` payload: ordered field list. -/
abbrev UserView := List (String × JPrim)

/-- The keys of a response object. -/
def viewKeys (v : UserView) : List String := v.map Prod.fst

/-- JS truthiness of a possibly-absent string field (`!x` is true for
`undefined` and for `""`). -/
def jsTruthy : Option String → Bool
  | none => false
  | some s => !(s == "")

/-- JS `x || null` on a possibly-absent string. -/
def jsOrNull (v : Option String) : Option String :=
  if jsTruthy v then v else none

/-- JS `x || d` on a possibly-absent string with a string default. -/
def jsOr (v : Option String) (d : String) : String :=
  match v with
  | some s => if s == "" then d else s
  | none => d

/-- SQL `COALESCE($i, col)` for a nullable column: a non-NULL parameter
(including the empty string) wins, NULL keeps the stored value. -/
def sqlCoalesce (param old : Option String) : Option String :=
  match param with
  | none => old
  | some s => some s

/-- SQL `COALESCE($i, col)` for a NOT NULL column. -/
def sqlCoalesceS (param : Option String) (old : String) : String :=
  match param with
  | none => old
  | some s => s

/-- The claims payload placed in the JWT: the dangun variant signs
`{id, username, nickname}` (no provider field, modelled as `none`), the
ecommerce variant signs `{id, username, nickname, provider}`. -/
structure JwtClaims where
  id : Nat
  username : Option String
  nickname : String
  provider : Option String
deriving DecidableEq, Repr

/-- A wire token: either a structurally well-formed signed token (claims,
expiry epoch-second, signing secret) or a malformed string. -/
inductive JwtToken where
  | signed (claims : JwtClaims) (exp : Nat) (sig : String)
  | malformed (raw : String)
deriving DecidableEq, Repr

/-- Seven days in seconds, the `expiresIn: '7d'` option. -/
def sevenDays : Nat := 7 * 24 * 60 * 60

/-- `jwt.sign(claims, secret, { expiresIn: '7d' })` at epoch-second `now`. -/
def jwtSign (claims : JwtClaims) (secret : String) (now : Nat) : JwtToken :=
  .signed claims (now + sevenDays) secret

/-- `jwt.verify(token, secret)` at epoch-second `now`: `some claims` on
success, `none` when the token is malformed, the signature does not match
the secret, or the expiry has passed (`now >= exp` is expired). -/
def jwtVerify (tok : JwtToken) (secret : String) (now : Nat) : Option JwtClaims :=
  match tok with
  | .malformed _ => none
  | .signed c exp sig => if sig == secret && decide (now < exp) then some c else none

/-- The `Authorization` header value, when present: either a single word with
no space in it (e.g. a bare `"Bearer"`), or a scheme word followed by a
space and a token part (`header.split(' ')[1]`). -/
inductive AuthHeader where
  | noSpace (word : String)
  | withToken (scheme : String) (tok : JwtToken)
deriving DecidableEq, Repr

/-- `header.startsWith('Bearer ')`: a space-free header value cannot contain
the trailing space of the prefix; otherwise the scheme word must be `Bearer`. -/
def headerIsBearer : AuthHeader → Bool
  | .noSpace _ => false
  | .withToken scheme _ => scheme == "Bearer"

/-- `header.split(' ')[1]` as a token; unreachable for space-free headers,
which the scheme check has already rejected. -/
def headerToken : AuthHeader → JwtToken
  | .noSpace w => .malformed w
  | .withToken _ t => t

/-- The `auth` middleware shared by both variants (dangun `server.js` lines
54-65, ecommerce lines 68-79): reject with 401 when the header is absent or
not in the Bearer scheme, reject with 401 when `jwt.verify` throws, otherwise
expose the decoded claims as `req.user`. -/
def auth (secret : String) (now : Nat) (header : Option AuthHeader) :
    Except (Nat × String) JwtClaims :=
  match header with
  | none => .error (401, "로그인이 필요합니다")
  | some h =>
    if !headerIsBearer h then .error (401, "로그인이 필요합니다")
    else
      match jwtVerify (headerToken h) secret now with
      | some claims => .ok claims
      | none => .error (401, "유효하지 않은 토큰입니다")

/-- The possible JSON responses of the auth endpoints. `okNoData` is the
envelope `{success: true}` produced when `data` is `undefined` (JSON
serialization drops undefined fields). -/
inductive ApiResult where
  | err (status : Nat) (message : String)
  | okUser (view : UserView)
  | okAuth (token : JwtToken) (view : UserView)
  | okNoData
deriving DecidableEq, Repr

/-- An Express route guarded by the `auth` middleware: on middleware failure
the error response is sent and the handler is never invoked (the state is
returned untouched); on success the handler runs with the decoded claims. -/
def protectedRoute {σ : Type} (secret : String) (now : Nat)
    (header : Option AuthHeader) (handler : JwtClaims → σ → ApiResult × σ)
    (st : σ) : ApiResult × σ :=
  match auth secret now header with
  | .error e => (.err e.1 e.2, st)
  | .ok claims => handler claims st

/-! ## The dangun variant (`dangun_01/server.js`) -/

/-- A row of `dangun_01_users`: `username` and `password` are NOT NULL,
`location` defaults to `'서울시 강남구'`. -/
structure DUser where
  id : Nat
  username : String
  password : String
  nickname : String
  location : String
  profile_image : Option String
  created_at : Nat
deriving DecidableEq, Repr

/-- The dangun users table plus the SERIAL counter. -/
structure DangunDB where
  users : List DUser
  nextId : Nat
deriving DecidableEq, Repr

/-- `INSERT INTO dangun_01_users (username, password, nickname)`: the UNIQUE
constraint on `username` raises `23505` (modelled as `Except.error ()`). -/
def dangunInsertUser (db : DangunDB) (now : Nat)
    (username password nickname : String) : Except Unit (DUser × DangunDB) :=
  if db.users.any (fun u => u.username == username) then .error ()
  else
    let u : DUser :=
      { id := db.nextId, username := username, password := password,
        nickname := nickname, location := "서울시 강남구",
        profile_image := none, created_at := now }
    .ok (u, { users := db.users ++ [u], nextId := db.nextId + 1 })

/-- The `RETURNING id, username, nickname, location` row of the register
insert, as the response user object. -/
def dangunRegisterView (u : DUser) : UserView :=
  [("id", .jnum u.id), ("username", .jstr u.username),
   ("nickname", .jstr u.nickname), ("location", .jstr u.location)]

def jprimOfOpt : Option String → JPrim
  | none => .jnull
  | some s => .jstr s

/-- The user object of the dangun login response (server.js line 112). -/
def dangunLoginView (u : DUser) : UserView :=
  [("id", .jnum u.id), ("username", .jstr u.username),
   ("nickname", .jstr u.nickname), ("location", .jstr u.location),
   ("profile_image", jprimOfOpt u.profile_image)]

/-- The `SELECT id, username, nickname, location, profile_image, created_at`
row of `GET /api/auth/me`. -/
def dangunMeView (u : DUser) : UserView :=
  [("id", .jnum u.id), ("username", .jstr u.username),
   ("nickname", .jstr u.nickname), ("location", .jstr u.location),
   ("profile_image", jprimOfOpt u.profile_image),
   ("created_at", .jnum u.created_at)]

/-- The `RETURNING id, username, nickname, location, profile_image` row of
`PUT /api/auth/profile`. -/
def dangunProfileView (u : DUser) : UserView :=
  [("id", .jnum u.id), ("username", .jstr u.username),
   ("nickname", .jstr u.nickname), ("location", .jstr u.location),
   ("profile_image", jprimOfOpt u.profile_image)]

/-- The token the dangun handlers sign: `{id, username, nickname}`. -/
def dangunToken (u : DUser) (secret : String) (now : Nat) : JwtToken :=
  jwtSign { id := u.id, username := some u.username, nickname := u.nickname,
            provider := none } secret now

/-- `POST /api/auth/register` of the dangun variant (server.js lines 69-90):
reject 400 when any of the three fields is falsy, otherwise hash and insert;
a `23505` duplicate becomes 409.  There is no password-length check. -/
def dangunRegister (db : DangunDB) (secret : String) (now : Nat)
    (hash : String → String) (username password nickname : Option String) :
    ApiResult × DangunDB :=
  match username, password, nickname with
  | some un, some pw, some nn =>
    if un == "" || pw == "" || nn == "" then
      (.err 400 "아이디, 비밀번호, 닉네임을 모두 입력해주세요", db)
    else
      match dangunInsertUser db now un (hash pw) nn with
      | .error _ => (.err 409 "이미 존재하는 아이디입니다", db)
      | .ok (u, db') =>
        (.okAuth (dangunToken u secret now) (dangunRegisterView u), db')
  | _, _, _ => (.err 400 "아이디, 비밀번호, 닉네임을 모두 입력해주세요", db)

/-- `POST /api/auth/login` of the dangun variant (server.js lines 92-119):
`compare` is `bcrypt.compare(password, storedHash)`.  An unknown username and
a failing hash comparison produce the same generic 401. -/
def dangunLogin (db : DangunDB) (secret : String) (now : Nat)
    (compare : String → String → Bool) (username password : Option String) :
    ApiResult :=
  match username, password with
  | some un, some pw =>
    if un == "" || pw == "" then
      .err 400 "아이디와 비밀번호를 입력해주세요"
    else
      match db.users.find? (fun u => u.username == un) with
      | none => .err 401 "아이디 또는 비밀번호가 틀렸습니다"
      | some u =>
        if !(compare pw u.password) then
          .err 401 "아이디 또는 비밀번호가 틀렸습니다"
        else
          .okAuth (dangunToken u secret now) (dangunLoginView u)
  | _, _ => .err 400 "아이디와 비밀번호를 입력해주세요"

/-- `GET /api/auth/me` of the dangun variant (server.js lines 121-135). -/
def dangunMe (db : DangunDB) (uid : Nat) : ApiResult :=
  match db.users.find? (fun u => u.id == uid) with
  | none => .err 404 "사용자를 찾을 수 없습니다"
  | some u => .okUser (dangunMeView u)

/-- `PUT /api/auth/profile` of the dangun variant (server.js lines 137-153):
`UPDATE ... SET nickname = COALESCE($1, nickname), location = COALESCE($2,
location) WHERE id = $3 RETURNING ...`.  When no row matches,
`result.rows[0]` is `undefined` and the response is `{success: true}` with
the `data` field dropped. -/
def dangunUpdateProfile (db : DangunDB) (uid : Nat)
    (nickname location : Option String) : ApiResult × DangunDB :=
  let upd := fun (u : DUser) =>
    { u with nickname := sqlCoalesceS nickname u.nickname,
             location := sqlCoalesceS location u.location }
  let db' : DangunDB :=
    { db with users := db.users.map (fun u => if u.id == uid then upd u else u) }
  match db.users.find? (fun u => u.id == uid) with
  | some u => (.okUser (dangunProfileView (upd u)), db')
  | none => (.okNoData, db')

/-! ## The ecommerce variant (the LUEUR `server.js` with Kakao OAuth) -/

/-- A row of `ecommerce_01_users`: `username`/`password` are nullable (Kakao
users have neither), `kakao_id` is a nullable UNIQUE column and `provider`
defaults to `'local'`. -/
structure EUser where
  id : Nat
  username : Option String
  password : Option String
  nickname : String
  email : Option String
  phone : Option String
  profile_image : Option String
  kakao_id : Option String
  provider : String
  created_at : Nat
deriving DecidableEq, Repr

/-- The ecommerce users table plus the SERIAL counter. -/
structure EcomDB where
  users : List EUser
  nextId : Nat
deriving DecidableEq, Repr

/-- `sanitizeUser` (ecommerce server lines 89-100): the fixed field list of
every user object sent in a response; the `password` column is omitted. -/
def sanitizeUser (u : EUser) : UserView :=
  [("id", .jnum u.id), ("username", jprimOfOpt u.username),
   ("nickname", .jstr u.nickname), ("email", jprimOfOpt u.email),
   ("phone", jprimOfOpt u.phone),
   ("profile_image", jprimOfOpt u.profile_image),
   ("provider", .jstr u.provider), ("created_at", .jnum u.created_at)]

/-- `generateToken` (ecommerce server lines 81-87): signs
`{id, username, nickname, provider}` with a 7-day expiry. -/
def generateToken (u : EUser) (secret : String) (now : Nat) : JwtToken :=
  jwtSign { id := u.id, username := u.username, nickname := u.nickname,
            provider := some u.provider } secret now

/-- `INSERT INTO ecommerce_01_users (username, password, nickname, email,
phone, provider) VALUES (..., 'local')`: the UNIQUE constraint on `username`
raises `23505` when another row already holds the same non-NULL username. -/
def ecomInsertLocal (db : EcomDB) (now : Nat) (username password nickname : String)
    (email phone : Option String) : Except Unit (EUser × EcomDB) :=
  if db.users.any (fun u => u.username == some username) then .error ()
  else
    let u : EUser :=
      { id := db.nextId, username := some username, password := some password,
        nickname := nickname, email := email, phone := phone,
        profile_image := none, kakao_id := none, provider := "local",
        created_at := now }
    .ok (u, { users := db.users ++ [u], nextId := db.nextId + 1 })

/-- `POST /api/auth/register` of the ecommerce variant (lines 105-131):
reject 400 when `username`, `password` or `nickname` is falsy, reject 400
when `password.length < 6`, otherwise hash and insert with
`email || null` and `phone || null`; a `23505` duplicate becomes 409. -/
def ecomRegister (db : EcomDB) (secret : String) (now : Nat)
    (hash : String → String)
    (username password nickname email phone : Option String) :
    ApiResult × EcomDB :=
  match username, password, nickname with
  | some un, some pw, some nn =>
    if un == "" || pw == "" || nn == "" then
      (.err 400 "아이디, 비밀번호, 닉네임을 모두 입력해주세요", db)
    else if pw.length < 6 then
      (.err 400 "비밀번호는 6자 이상이어야 합니다", db)
    else
      match ecomInsertLocal db now un (hash pw) nn (jsOrNull email) (jsOrNull phone) with
      | .error _ => (.err 409 "이미 존재하는 아이디입니다", db)
      | .ok (u, db') =>
        (.okAuth (generateToken u secret now) (sanitizeUser u), db')
  | _, _, _ => (.err 400 "아이디, 비밀번호, 닉네임을 모두 입력해주세요", db)

/-- `POST /api/auth/login` of the ecommerce variant (lines 134-158): the
lookup is `WHERE username = $1 AND provider = 'local'`, so a NULL username
(Kakao account) never matches; unknown username and failing hash comparison
produce the same generic 401. -/
def ecomLogin (db : EcomDB) (secret : String) (now : Nat)
    (compare : String → String → Bool) (username password : Option String) :
    ApiResult :=
  match username, password with
  | some un, some pw =>
    if un == "" || pw == "" then
      .err 400 "아이디와 비밀번호를 입력해주세요"
    else
      match db.users.find? (fun u => u.username == some un && u.provider == "local") with
      | none => .err 401 "아이디 또는 비밀번호가 틀렸습니다"
      | some u =>
        if !(compare pw (u.password.getD "")) then
          .err 401 "아이디 또는 비밀번호가 틀렸습니다"
        else
          .okAuth (generateToken u secret now) (sanitizeUser u)
  | _, _ => .err 400 "아이디와 비밀번호를 입력해주세요"

/-- `GET /api/auth/me` of the ecommerce variant (lines 232-246). -/
def ecomMe (db : EcomDB) (uid : Nat) : ApiResult :=
  match db.users.find? (fun u => u.id == uid) with
  | none => .err 404 "사용자를 찾을 수 없습니다"
  | some u => .okUser (sanitizeUser u)

/-- `PUT /api/auth/profile` of the ecommerce variant (lines 249-266):
COALESCE update of nickname/email/phone keyed by the token identity.  When
no row matches, `sanitizeUser(result.rows[0])` dereferences `undefined`,
throws, and the catch block answers 500. -/
def ecomUpdateProfile (db : EcomDB) (uid : Nat)
    (nickname email phone : Option String) : ApiResult × EcomDB :=
  let upd := fun (u : EUser) =>
    { u with nickname := sqlCoalesceS nickname u.nickname,
             email := sqlCoalesce email u.email,
             phone := sqlCoalesce phone u.phone }
  let db' : EcomDB :=
    { db with users := db.users.map (fun u => if u.id == uid then upd u else u) }
  match db.users.find? (fun u => u.id == uid) with
  | some u => (.okUser (sanitizeUser (upd u)), db')
  | none => (.err 500 "서버 오류", db')

/-! ## The Kakao OAuth callback (ecommerce server lines 161-229) -/

/-- The JSON body of the Kakao token-exchange response. -/
structure KakaoTokenData where
  access_token : Option String
  error_description : Option String
deriving DecidableEq, Repr

/-- The profile fetched from `kapi.kakao.com/v2/user/me`: `id` is always
present, the optional-consent fields may be absent. -/
structure KakaoProfile where
  id : Nat
  nickname : Option String
  profile_image : Option String
  email : Option String
deriving DecidableEq, Repr

/-- What the callback endpoint sends to the user agent: a redirect to the
login page with an error message, a redirect to the SPA callback route with
a freshly issued token, or a raw JSON response (which the callback never
produces). -/
inductive HttpResponse where
  | redirectLoginError (message : String)
  | redirectWithToken (tok : JwtToken)
  | json (status : Nat) (success : Bool) (message : String)
deriving DecidableEq, Repr

/-- `GET /api/auth/kakao/callback` (lines 161-229).  The two outbound fetches
are inputs: `tokenExchange` is the parsed token response (`Except.error`
models a thrown fetch/parse error, caught by the catch-all) and
`fetchProfile` maps the access token to the parsed profile.  A missing or
empty `code`, a token response without `access_token`, and any thrown error
all redirect to `/#/login?error=...`; on success the user keyed by
`kakao_id` is refreshed (nickname unconditionally, profile image and email
by COALESCE) or created with `provider='kakao'` and NULL local credentials,
and the user agent is redirected with a new token. -/
def kakaoCallback (db : EcomDB) (secret : String) (now : Nat)
    (code : Option String) (tokenExchange : Except String KakaoTokenData)
    (fetchProfile : String → Except String KakaoProfile) :
    HttpResponse × EcomDB :=
  if !(jsTruthy code) then
    (.redirectLoginError "카카오 인증에 실패했습니다", db)
  else
    match tokenExchange with
    | .error _ => (.redirectLoginError "카카오 로그인 처리 중 오류가 발생했습니다", db)
    | .ok tokenData =>
      if !(jsTruthy tokenData.access_token) then
        (.redirectLoginError (jsOr tokenData.error_description "카카오 토큰 발급에 실패했습니다"), db)
      else
        match fetchProfile (tokenData.access_token.getD "") with
        | .error _ => (.redirectLoginError "카카오 로그인 처리 중 오류가 발생했습니다", db)
        | .ok kakaoUser =>
          let kakaoId := toString kakaoUser.id
          let kakaoNickname := jsOr kakaoUser.nickname "카카오 사용자"
          let kakaoEmail := jsOrNull kakaoUser.email
          let kakaoProfileImage := jsOrNull kakaoUser.profile_image
          match db.users.find? (fun u => u.kakao_id == some kakaoId) with
          | some u0 =>
            let upd := fun (u : EUser) =>
              { u with nickname := kakaoNickname,
                       profile_image := sqlCoalesce kakaoProfileImage u.profile_image,
                       email := sqlCoalesce kakaoEmail u.email }
            let users' :=
              db.users.map (fun u => if u.kakao_id == some kakaoId then upd u else u)
            let db' : EcomDB := { db with users := users' }
            (.redirectWithToken (generateToken (upd u0) secret now), db')
          | none =>
            let u : EUser :=
              { id := db.nextId, username := none, password := none,
                nickname := kakaoNickname, email := kakaoEmail, phone := none,
                profile_image := kakaoProfileImage, kakao_id := some kakaoId,
                provider := "kakao", created_at := now }
            (.redirectWithToken (generateToken u secret now),
             { users := db.users ++ [u], nextId := db.nextId + 1 })

/-! ## Helper predicates and sample values used in statements and witnesses -/

/-- Whether a response is a success envelope. -/
def ApiResult.isOk : ApiResult → Bool
  | .err _ _ => false
  | _ => true

/-- Whether the user object of a success response omits the `password` key
(vacuously true for responses without a user object). -/
def ApiResult.viewNoPassword : ApiResult → Bool
  | .okUser v => !((viewKeys v).contains "password")
  | .okAuth _ v => !((viewKeys v).contains "password")
  | _ => true

/-- Whether a callback response is a redirect rather than a JSON body. -/
def HttpResponse.isRedirect : HttpResponse → Bool
  | .json _ _ _ => false
  | _ => true

/-- A stand-in bcrypt hash for concrete evaluations. -/
def testHash (p : String) : String := "h:" ++ p

/-- A stand-in bcrypt comparison matching `testHash`. -/
def testCompare (p h : String) : Bool := h == testHash p

/-- The empty dangun users table. -/
def emptyDangunDB : DangunDB := { users := [], nextId := 1 }

/-- The empty ecommerce users table. -/
def emptyEcomDB : EcomDB := { users := [], nextId := 1 }

/-- A concrete dangun user row for witnesses. -/
def wDUser : DUser :=
  { id := 1, username := "bob", password := "h:secret1", nickname := "B",
    location := "서울시 강남구", profile_image := none, created_at := 0 }

/-- A concrete ecommerce local user row for witnesses. -/
def wEUser : EUser :=
  { id := 1, username := some "bob", password := some "h:secret1",
    nickname := "B", email := none, phone := none, profile_image := none,
    kakao_id := none, provider := "local", created_at := 0 }

/-- A concrete ecommerce Kakao user row for witnesses. -/
def wKUser : EUser :=
  { id := 2, username := none, password := none, nickname := "Old",
    email := some "old@x.kr", phone := none, profile_image := some "old.png",
    kakao_id := some "77", provider := "kakao", created_at := 0 }

/-- A concrete claims payload for witnesses. -/
def wClaims : JwtClaims :=
  { id := 1, username := some "bob", nickname := "B", provider := none }

/-- A concrete downstream handler for witnesses: bumps a counter. -/
def wHandler : JwtClaims → Nat → ApiResult × Nat :=
  fun _ n => (.okNoData, n + 1)

/-! ## C5: the 7-day token validity window -/

/-- C5: every issued token carries a 7-day expiry: it is accepted exactly
while the clock is strictly below `now + 7 days` (so at `T + 6 days` but not
at `T + 8 days`), and `verify` rejects any token whose recorded signature
secret differs from the process secret as well as any malformed token;
`generateToken` issues through this same signing path. -/
theorem token_seven_day_window (claims : JwtClaims) (secret : String)
    (now : Nat) (u : EUser) :
    jwtVerify (jwtSign claims secret now) secret (now + 6 * 86400) = some claims
    ∧ jwtVerify (jwtSign claims secret now) secret (now + 8 * 86400) = none
    ∧ (∀ t, jwtVerify (jwtSign claims secret now) secret t = some claims ↔
        t < now + 7 * 86400)
    ∧ (∀ s2, s2 ≠ secret →
        ∀ t, jwtVerify (jwtSign claims secret now) s2 t = none)
    ∧ (∀ raw s t, jwtVerify (.malformed raw) s t = none)
    ∧ generateToken u secret now
        = jwtSign { id := u.id, username := u.username, nickname := u.nickname,
                    provider := some u.provider } secret now := by
  refine ⟨?_, ?_, ?_, ?_, ?_, rfl⟩
  · simp [jwtVerify, jwtSign, sevenDays]
  · simp [jwtVerify, jwtSign, sevenDays]
  · intro t
    simp [jwtVerify, jwtSign, sevenDays]
  · intro s2 hs t
    simp [jwtVerify, jwtSign, Ne.symm hs]
  · intro raw s t
    rfl

/-- Witness for C5 at concrete inputs. -/
theorem token_seven_day_window_witness :
    jwtVerify (jwtSign wClaims "s" 1000) "s" (1000 + 6 * 86400) = some wClaims
    ∧ jwtVerify (jwtSign wClaims "s" 1000) "s" (1000 + 8 * 86400) = none
    ∧ (jwtVerify (jwtSign wClaims "s" 1000) "s" 604999 = some wClaims ↔
        604999 < 1000 + 7 * 86400)
    ∧ jwtVerify (jwtSign wClaims "s" 1000) "other" (1000 + 3600) = none
    ∧ jwtVerify (.malformed "xx") "s" 1000 = none := by
  have h := token_seven_day_window wClaims "s" 1000 wEUser
  exact ⟨h.1, h.2.1, h.2.2.1 604999, h.2.2.2.1 "other" (by decide) (1000 + 3600),
         h.2.2.2.2.1 "xx" "s" 1000⟩

/-! ## C1: the bearer gate -/

/-- C1: on a bearer-protected route, an absent header, a header not in the
Bearer scheme, and a token failing verification each yield the 401 response
with the untouched state — for every downstream handler, which therefore
never runs; when verification succeeds, the route is exactly the downstream
handler applied to the decoded claims. -/
theorem bearer_gate_contract {σ : Type} (secret : String) (now : Nat)
    (handler : JwtClaims → σ → ApiResult × σ) (st : σ) :
    (protectedRoute secret now none handler st = (.err 401 "로그인이 필요합니다", st))
    ∧ (∀ h, headerIsBearer h = false →
        protectedRoute secret now (some h) handler st
          = (.err 401 "로그인이 필요합니다", st))
    ∧ (∀ h, headerIsBearer h = true →
        jwtVerify (headerToken h) secret now = none →
        protectedRoute secret now (some h) handler st
          = (.err 401 "유효하지 않은 토큰입니다", st))
    ∧ (∀ h c, headerIsBearer h = true →
        jwtVerify (headerToken h) secret now = some c →
        protectedRoute secret now (some h) handler st = handler c st) := by
  refine ⟨rfl, ?_, ?_, ?_⟩
  · intro h hb
    simp [protectedRoute, auth, hb]
  · intro h hb hv
    simp [protectedRoute, auth, hb, hv]
  · intro h c hb hv
    simp [protectedRoute, auth, hb, hv]

/-- Witness for C1: the four gate outcomes at concrete requests. -/
theorem bearer_gate_contract_witness :
    protectedRoute "s" 100 none wHandler 0 = (.err 401 "로그인이 필요합니다", 0)
    ∧ protectedRoute "s" 100 (some (.noSpace "Bearer")) wHandler 0
        = (.err 401 "로그인이 필요합니다", 0)
    ∧ protectedRoute "s" 100 (some (.withToken "Basic" (jwtSign wClaims "s" 100))) wHandler 0
        = (.err 401 "로그인이 필요합니다", 0)
    ∧ protectedRoute "s" 100 (some (.withToken "Bearer" (.signed wClaims 50 "s"))) wHandler 0
        = (.err 401 "유효하지 않은 토큰입니다", 0)
    ∧ protectedRoute "s" 100 (some (.withToken "Bearer" (jwtSign wClaims "other" 100))) wHandler 0
        = (.err 401 "유효하지 않은 토큰입니다", 0)
    ∧ protectedRoute "s" 100 (some (.withToken "Bearer" (jwtSign wClaims "s" 100))) wHandler 0
        = wHandler wClaims 0 := by
  have h := bearer_gate_contract (σ := Nat) "s" 100 wHandler 0
  exact ⟨h.1,
         h.2.1 (.noSpace "Bearer") rfl,
         h.2.1 (.withToken "Basic" (jwtSign wClaims "s" 100)) rfl,
         h.2.2.1 (.withToken "Bearer" (.signed wClaims 50 "s")) rfl rfl,
         h.2.2.1 (.withToken "Bearer" (jwtSign wClaims "other" 100)) rfl rfl,
         h.2.2.2 (.withToken "Bearer" (jwtSign wClaims "s" 100)) wClaims rfl rfl⟩

/-! ## C2: username-enumeration resistance of login -/

/-- C2: in either variant, a login whose username resolves to no
local-provider account and a login whose username resolves but whose
password fails the hash comparison produce the same 401 response with the
identical generic message. -/
theorem login_enumeration_resistant
    (ddb : DangunDB) (edb : EcomDB) (secret : String) (now : Nat)
    (compare : String → String → Bool)
    (un1 pw1 un2 pw2 eun1 epw1 eun2 epw2 : String) (du : DUser) (eu : EUser)
    (h1 : un1 ≠ "") (h2 : pw1 ≠ "")
    (hno : ddb.users.find? (fun u => u.username == un1) = none)
    (h3 : un2 ≠ "") (h4 : pw2 ≠ "")
    (hyes : ddb.users.find? (fun u => u.username == un2) = some du)
    (hbad : compare pw2 du.password = false)
    (he1 : eun1 ≠ "") (he2 : epw1 ≠ "")
    (heno : edb.users.find?
        (fun u => u.username == some eun1 && u.provider == "local") = none)
    (he3 : eun2 ≠ "") (he4 : epw2 ≠ "")
    (heyes : edb.users.find?
        (fun u => u.username == some eun2 && u.provider == "local") = some eu)
    (hebad : compare epw2 (eu.password.getD "") = false) :
    dangunLogin ddb secret now compare (some un1) (some pw1)
        = .err 401 "아이디 또는 비밀번호가 틀렸습니다"
    ∧ dangunLogin ddb secret now compare (some un2) (some pw2)
        = .err 401 "아이디 또는 비밀번호가 틀렸습니다"
    ∧ ecomLogin edb secret now compare (some eun1) (some epw1)
        = .err 401 "아이디 또는 비밀번호가 틀렸습니다"
    ∧ ecomLogin edb secret now compare (some eun2) (some epw2)
        = .err 401 "아이디 또는 비밀번호가 틀렸습니다"
    ∧ dangunLogin ddb secret now compare (some un1) (some pw1)
        = dangunLogin ddb secret now compare (some un2) (some pw2)
    ∧ ecomLogin edb secret now compare (some eun1) (some epw1)
        = ecomLogin edb secret now compare (some eun2) (some epw2) := by
  have d1 : dangunLogin ddb secret now compare (some un1) (some pw1)
      = .err 401 "아이디 또는 비밀번호가 틀렸습니다" := by
    simp [dangunLogin, h1, h2, hno]
  have d2 : dangunLogin ddb secret now compare (some un2) (some pw2)
      = .err 401 "아이디 또는 비밀번호가 틀렸습니다" := by
    simp [dangunLogin, h3, h4, hyes, hbad]
  have e1 : ecomLogin edb secret now compare (some eun1) (some epw1)
      = .err 401 "아이디 또는 비밀번호가 틀렸습니다" := by
    simp [ecomLogin, he1, he2, heno]
  have e2 : ecomLogin edb secret now compare (some eun2) (some epw2)
      = .err 401 "아이디 또는 비밀번호가 틀렸습니다" := by
    simp [ecomLogin, he3, he4, heyes, hebad]
  exact ⟨d1, d2, e1, e2, d1.trans d2.symm, e1.trans e2.symm⟩

/-- Witness for C2: unknown username "alice" versus existing "bob" with a
wrong password, in both variants. -/
theorem login_enumeration_resistant_witness :
    dangunLogin { users := [wDUser], nextId := 2 } "s" 0 testCompare
        (some "alice") (some "x") = .err 401 "아이디 또는 비밀번호가 틀렸습니다"
    ∧ dangunLogin { users := [wDUser], nextId := 2 } "s" 0 testCompare
        (some "bob") (some "wrong") = .err 401 "아이디 또는 비밀번호가 틀렸습니다"
    ∧ ecomLogin { users := [wEUser], nextId := 2 } "s" 0 testCompare
        (some "alice") (some "x") = .err 401 "아이디 또는 비밀번호가 틀렸습니다"
    ∧ ecomLogin { users := [wEUser], nextId := 2 } "s" 0 testCompare
        (some "bob") (some "wrong") = .err 401 "아이디 또는 비밀번호가 틀렸습니다" := by
  have h := login_enumeration_resistant
    { users := [wDUser], nextId := 2 } { users := [wEUser], nextId := 2 }
    "s" 0 testCompare "alice" "x" "bob" "wrong" "alice" "x" "bob" "wrong"
    wDUser wEUser
    (by decide) (by decide) (by decide) (by decide) (by decide)
    (by decide) (by decide) (by decide) (by decide) (by decide)
    (by decide) (by decide) (by decide) (by decide)
  exact ⟨h.1, h.2.1, h.2.2.1, h.2.2.2.1⟩

/-! ## C4: password hash never in a response user view -/

/-- C4: every user object sent by a successful register, login, me or
profile-update response — in either variant — is built from a fixed field
list that does not contain the `password` column. -/
theorem responses_never_contain_password
    (ddb : DangunDB) (edb : EcomDB) (secret : String) (now : Nat)
    (hash : String → String) (compare : String → String → Bool)
    (username password nickname email phone loc : Option String) (uid : Nat) :
    ((dangunRegister ddb secret now hash username password nickname).1.viewNoPassword = true)
    ∧ ((dangunLogin ddb secret now compare username password).viewNoPassword = true)
    ∧ ((dangunMe ddb uid).viewNoPassword = true)
    ∧ ((dangunUpdateProfile ddb uid nickname loc).1.viewNoPassword = true)
    ∧ ((ecomRegister edb secret now hash username password nickname email phone).1.viewNoPassword = true)
    ∧ ((ecomLogin edb secret now compare username password).viewNoPassword = true)
    ∧ ((ecomMe edb uid).viewNoPassword = true)
    ∧ ((ecomUpdateProfile edb uid nickname email phone).1.viewNoPassword = true) := by
  refine ⟨?_, ?_, ?_, ?_, ?_, ?_, ?_, ?_⟩
  · unfold dangunRegister
    repeat' split
    all_goals rfl
  · unfold dangunLogin
    repeat' split
    all_goals rfl
  · unfold dangunMe
    repeat' split
    all_goals rfl
  · unfold dangunUpdateProfile
    repeat' split
    all_goals rfl
  · unfold ecomRegister
    repeat' split
    all_goals rfl
  · unfold ecomLogin
    repeat' split
    all_goals rfl
  · unfold ecomMe
    repeat' split
    all_goals rfl
  · unfold ecomUpdateProfile
    repeat' split
    all_goals rfl

/-! ## C3: register validation -/

/-- C3 counterexample: the dangun register applies no password-length
policy — with all three fields present, the 3-character password `"abc"`
is hashed and persisted and the response is a success envelope, not a 400
`ValidationError`. -/
theorem dangun_register_accepts_short_password :
    ("abc".length < 6)
    ∧ (dangunRegister emptyDangunDB "s" 0 testHash
        (some "bob") (some "abc") (some "B")).1.isOk = true
    ∧ (dangunRegister emptyDangunDB "s" 0 testHash
        (some "bob") (some "abc") (some "B")).2.users
      = [{ id := 1, username := "bob", password := "h:abc", nickname := "B",
           location := "서울시 강남구", profile_image := none, created_at := 0 }] := by
  refine ⟨by decide, rfl, rfl⟩

/-- C3 amended: both variants answer 400 when `username`, `password` or
`nickname` is falsy; the minimum-length policy of 6 characters exists only
in the ecommerce variant, which also answers 400 on a shorter password; the
dangun variant applies no length check.  Inputs passing the applicable
checks proceed to hashing and persistence (shown on a fresh username). -/
theorem register_validation
    (ddb : DangunDB) (edb : EcomDB) (secret : String) (now : Nat)
    (hash : String → String) (email phone : Option String) (un pw nn : String) :
    (∀ username password nickname,
      (jsTruthy username && jsTruthy password && jsTruthy nickname) = false →
      dangunRegister ddb secret now hash username password nickname
        = (.err 400 "아이디, 비밀번호, 닉네임을 모두 입력해주세요", ddb)
      ∧ ecomRegister edb secret now hash username password nickname email phone
        = (.err 400 "아이디, 비밀번호, 닉네임을 모두 입력해주세요", edb))
    ∧ (un ≠ "" → pw ≠ "" → nn ≠ "" → pw.length < 6 →
      ecomRegister edb secret now hash (some un) (some pw) (some nn) email phone
        = (.err 400 "비밀번호는 6자 이상이어야 합니다", edb))
    ∧ (un ≠ "" → pw ≠ "" → nn ≠ "" → ¬(pw.length < 6) →
      edb.users.any (fun u => u.username == some un) = false →
      (ecomRegister edb secret now hash (some un) (some pw) (some nn) email phone).2.users
        = edb.users ++
          [{ id := edb.nextId, username := some un, password := some (hash pw),
             nickname := nn, email := jsOrNull email, phone := jsOrNull phone,
             profile_image := none, kakao_id := none, provider := "local",
             created_at := now }])
    ∧ (un ≠ "" → pw ≠ "" → nn ≠ "" →
      ddb.users.any (fun u => u.username == un) = false →
      (dangunRegister ddb secret now hash (some un) (some pw) (some nn)).2.users
        = ddb.users ++
          [{ id := ddb.nextId, username := un, password := hash pw,
             nickname := nn, location := "서울시 강남구", profile_image := none,
             created_at := now }]) := by
  refine ⟨?_, ?_, ?_, ?_⟩
  · intro username password nickname hfalsy
    match username, password, nickname with
    | none, _, _ =>
      exact ⟨rfl, rfl⟩
    | some u, none, _ =>
      constructor
      · rcases u with ⟨_atoms⟩
        simp [dangunRegister]
      · simp [ecomRegister]
    | some u, some p, none =>
      exact ⟨by simp [dangunRegister], by simp [ecomRegister]⟩
    | some u, some p, some n =>
      simp [jsTruthy] at hfalsy
      constructor
      · simp [dangunRegister]
        intro hu hp
        rcases hfalsy hu hp with h
        simp [h]
      · simp [ecomRegister]
        intro hu hp
        rcases hfalsy hu hp with h
        simp [h]
  · intro hu hp hn hlen
    simp [ecomRegister, hu, hp, hn, hlen]
  · intro hu hp hn hlen hfresh
    simp [ecomRegister, ecomInsertLocal, hu, hp, hn, hlen, hfresh]
  · intro hu hp hn hfresh
    simp [dangunRegister, dangunInsertUser, hu, hp, hn, hfresh]

/-- Witness for the amended C3 at concrete inputs: a missing username is
rejected 400 by both variants, a short password is rejected 400 by the
ecommerce variant, and valid inputs are hashed and persisted in both. -/
theorem register_validation_witness :
    (dangunRegister emptyDangunDB "s" 0 testHash none (some "x") (some "y")
        = (.err 400 "아이디, 비밀번호, 닉네임을 모두 입력해주세요", emptyDangunDB)
      ∧ ecomRegister emptyEcomDB "s" 0 testHash none (some "x") (some "y") none none
        = (.err 400 "아이디, 비밀번호, 닉네임을 모두 입력해주세요", emptyEcomDB))
    ∧ ecomRegister emptyEcomDB "s" 0 testHash (some "bob") (some "abc") (some "B") none none
        = (.err 400 "비밀번호는 6자 이상이어야 합니다", emptyEcomDB)
    ∧ (ecomRegister emptyEcomDB "s" 0 testHash (some "bob") (some "secret1") (some "B") none none).2.users
        = emptyEcomDB.users ++
          [{ id := 1, username := some "bob", password := some (testHash "secret1"),
             nickname := "B", email := jsOrNull none, phone := jsOrNull none,
             profile_image := none, kakao_id := none, provider := "local", created_at := 0 }]
    ∧ (dangunRegister emptyDangunDB "s" 0 testHash (some "bob") (some "abc") (some "B")).2.users
        = emptyDangunDB.users ++
          [{ id := 1, username := "bob", password := testHash "abc", nickname := "B",
             location := "서울시 강남구", profile_image := none, created_at := 0 }] := by
  have h := register_validation emptyDangunDB emptyEcomDB "s" 0 testHash none none
    "bob" "abc" "B"
  have h2 := register_validation emptyDangunDB emptyEcomDB "s" 0 testHash none none
    "bob" "secret1" "B"
  exact ⟨h.1 none (some "x") (some "y") (by decide),
         h.2.1 (by decide) (by decide) (by decide) (by decide),
         h2.2.2.1 (by decide) (by decide) (by decide) (by decide) (by decide),
         h.2.2.2 (by decide) (by decide) (by decide) (by decide)⟩

/-! ## C6: duplicate registration -/

/-- C6 counterexample: after a successful register of "alice", a later
register with the same username but an empty password is rejected by the
field validation with 400, not with Conflict 409 — the claim's "regardless
of the other fields supplied" does not hold. -/
theorem duplicate_register_not_always_conflict :
    (dangunRegister emptyDangunDB "s" 0 testHash
        (some "alice") (some "secret1") (some "Alice")).1.isOk = true
    ∧ (dangunRegister
        (dangunRegister emptyDangunDB "s" 0 testHash
          (some "alice") (some "secret1") (some "Alice")).2
        "s" 0 testHash (some "alice") (some "") (some "Bob")).1
      = .err 400 "아이디, 비밀번호, 닉네임을 모두 입력해주세요" := by
  exact ⟨rfl, rfl⟩

/-- C6 amended: once a username is stored, every later register with that
username whose other fields pass the field validation (all three present
and non-empty, and in the ecommerce variant a password of at least 6
characters) fails with Conflict 409 and leaves the store — in particular
the existing user record — unchanged; a later register failing the field
validation is rejected with 400 before the uniqueness check. -/
theorem duplicate_register_conflict
    (ddb : DangunDB) (edb : EcomDB) (secret : String) (now : Nat)
    (hash : String → String) (email phone : Option String) (un pw nn : String)
    (hu : un ≠ "") (hp : pw ≠ "") (hn : nn ≠ "")
    (hdup : ddb.users.any (fun u => u.username == un) = true)
    (hedup : edb.users.any (fun u => u.username == some un) = true) :
    dangunRegister ddb secret now hash (some un) (some pw) (some nn)
      = (.err 409 "이미 존재하는 아이디입니다", ddb)
    ∧ (¬(pw.length < 6) →
      ecomRegister edb secret now hash (some un) (some pw) (some nn) email phone
        = (.err 409 "이미 존재하는 아이디입니다", edb)) := by
  constructor
  · simp [dangunRegister, dangunInsertUser, hu, hp, hn, hdup]
  · intro hlen
    simp [ecomRegister, ecomInsertLocal, hu, hp, hn, hlen, hedup]

/-- Witness for the amended C6: re-registering "bob" yields 409 and an
unchanged store in both variants — in the dangun variant even with the
short password "abc", which its presence-only validation lets through. -/
theorem duplicate_register_conflict_witness :
    dangunRegister { users := [wDUser], nextId := 2 } "s" 5 testHash
        (some "bob") (some "abc") (some "Bobby")
      = (.err 409 "이미 존재하는 아이디입니다", { users := [wDUser], nextId := 2 })
    ∧ ecomRegister { users := [wEUser], nextId := 2 } "s" 5 testHash
        (some "bob") (some "other66") (some "Bobby") (some "b@x.kr") none
      = (.err 409 "이미 존재하는 아이디입니다", { users := [wEUser], nextId := 2 }) := by
  have h1 := duplicate_register_conflict
    { users := [wDUser], nextId := 2 } { users := [wEUser], nextId := 2 }
    "s" 5 testHash (some "b@x.kr") none "bob" "abc" "Bobby"
    (by decide) (by decide) (by decide) (by decide) (by decide)
  have h2 := duplicate_register_conflict
    { users := [wDUser], nextId := 2 } { users := [wEUser], nextId := 2 }
    "s" 5 testHash (some "b@x.kr") none "bob" "other66" "Bobby"
    (by decide) (by decide) (by decide) (by decide) (by decide)
  exact ⟨h1.1, h2.2 (by decide)⟩

/-! ## C7: coalesce semantics of profile update -/

/-- C7: updating only the nickname leaves every other stored field of the
target user (and every other user) unchanged in both variants: the response
carries the user re-read with just the nickname replaced, and the stored
table is the pointwise nickname-only rewrite of the old table. -/
theorem update_profile_coalesce
    (ddb : DangunDB) (edb : EcomDB) (du : DUser) (eu : EUser) (x : String)
    (uid euid : Nat)
    (hd : ddb.users.find? (fun u => u.id == uid) = some du)
    (he : edb.users.find? (fun u => u.id == euid) = some eu) :
    dangunUpdateProfile ddb uid (some x) none
      = (.okUser (dangunProfileView { du with nickname := x }),
         { ddb with users := (ddb.users.map
             (fun v => if v.id == uid then { v with nickname := x } else v)) })
    ∧ ecomUpdateProfile edb euid (some x) none none
      = (.okUser (sanitizeUser { eu with nickname := x }),
         { edb with users := (edb.users.map
             (fun v => if v.id == euid then { v with nickname := x } else v)) }) := by
  constructor
  · simp [dangunUpdateProfile, hd, sqlCoalesceS]
  · simp [ecomUpdateProfile, he, sqlCoalesceS, sqlCoalesce]

/-- Witness for C7: a nickname-only update of the stored user keeps
username, location, email, phone, profile image and creation time. -/
theorem update_profile_coalesce_witness :
    dangunUpdateProfile { users := [wDUser], nextId := 2 } 1 (some "X") none
      = (.okUser (dangunProfileView { wDUser with nickname := "X" }),
         { users := [{ wDUser with nickname := "X" }], nextId := 2 })
    ∧ ecomUpdateProfile { users := [wEUser, wKUser], nextId := 3 } 1 (some "X") none none
      = (.okUser (sanitizeUser { wEUser with nickname := "X" }),
         { users := [{ wEUser with nickname := "X" }, wKUser], nextId := 3 }) := by
  have h := update_profile_coalesce
    { users := [wDUser], nextId := 2 } { users := [wEUser, wKUser], nextId := 3 }
    wDUser wEUser "X" 1 1 (by decide) (by decide)
  exact ⟨h.1.trans (by decide), h.2.trans (by decide)⟩

/-! ## C8: federated account linking -/

/-- C8: with a verified code and access token, a callback for a
provider-identifier that already has a stored user rewrites that user's
nickname, profile image and email to the fresh provider data while touching
no other column — in particular the numeric id and the provider tag are
preserved — and redirects with a token for the refreshed user; for an
unknown provider-identifier a new user is appended with provider `kakao`,
NULL username and password, and the fallback nickname when the provider
supplies none. -/
theorem kakao_callback_link_or_create
    (db : EcomDB) (secret : String) (now : Nat) (c atk : String)
    (profile : KakaoProfile) (u0 : EUser)
    (hc : c ≠ "") (hat : atk ≠ "") :
    (∀ nick img em,
      profile.nickname = some nick → nick ≠ "" →
      profile.profile_image = some img → img ≠ "" →
      profile.email = some em → em ≠ "" →
      db.users.find? (fun u => u.kakao_id == some (toString profile.id)) = some u0 →
      kakaoCallback db secret now (some c)
          (.ok { access_token := some atk, error_description := none })
          (fun _ => .ok profile)
        = (.redirectWithToken (generateToken
             { u0 with nickname := nick, profile_image := some img,
                       email := some em } secret now),
           { db with users := (db.users.map (fun u =>
               if u.kakao_id == some (toString profile.id) then
                 { u with nickname := nick, profile_image := some img,
                          email := some em }
               else u)) }))
    ∧ (profile.nickname = none →
      db.users.find? (fun u => u.kakao_id == some (toString profile.id)) = none →
      kakaoCallback db secret now (some c)
          (.ok { access_token := some atk, error_description := none })
          (fun _ => .ok profile)
        = (.redirectWithToken (generateToken
             { id := db.nextId, username := none, password := none,
               nickname := "카카오 사용자", email := jsOrNull profile.email,
               phone := none, profile_image := jsOrNull profile.profile_image,
               kakao_id := some (toString profile.id), provider := "kakao",
               created_at := now } secret now),
           { users := db.users ++
               [{ id := db.nextId, username := none, password := none,
                  nickname := "카카오 사용자", email := jsOrNull profile.email,
                  phone := none, profile_image := jsOrNull profile.profile_image,
                  kakao_id := some (toString profile.id), provider := "kakao",
                  created_at := now }],
             nextId := db.nextId + 1 })) := by
  constructor
  · intro nick img em h1 h2 h3 h4 h5 h6 hfind
    simp [kakaoCallback, jsTruthy, hc, hat, h1, h2, h3, h4, h5, h6, hfind,
          jsOr, jsOrNull, sqlCoalesce]
  · intro hnon hnone
    simp [kakaoCallback, jsTruthy, hc, hat, hnon, hnone, jsOr]

/-- Witness for C8: a re-login of the stored Kakao user 77 refreshes its
profile in place, and a first login of the unknown Kakao user 99 with no
profile fields creates a fallback-named user. -/
theorem kakao_callback_link_or_create_witness :
    kakaoCallback { users := [wKUser], nextId := 3 } "s" 9 (some "code")
        (.ok { access_token := some "atk", error_description := none })
        (fun _ => .ok { id := 77, nickname := some "New",
                        profile_image := some "new.png", email := some "new@x.kr" })
      = (.redirectWithToken (generateToken
           { wKUser with nickname := "New", profile_image := some "new.png",
                         email := some "new@x.kr" } "s" 9),
         { users := [{ wKUser with nickname := "New", profile_image := some "new.png", email := some "new@x.kr" }], nextId := 3 })
    ∧ kakaoCallback emptyEcomDB "s" 9 (some "code")
        (.ok { access_token := some "atk", error_description := none })
        (fun _ => .ok { id := 99, nickname := none,
                        profile_image := none, email := none })
      = (.redirectWithToken (generateToken
           { id := 1, username := none, password := none,
             nickname := "카카오 사용자", email := none, phone := none,
             profile_image := none, kakao_id := some "99",
             provider := "kakao", created_at := 9 } "s" 9),
         { users := [({ id := 1, username := none, password := none, nickname := "카카오 사용자", email := none, phone := none, profile_image := none, kakao_id := some "99", provider := "kakao", created_at := 9 } : EUser)], nextId := 2 }) := by
  have h1 := (kakao_callback_link_or_create
    { users := [wKUser], nextId := 3 } "s" 9 "code" "atk"
    { id := 77, nickname := some "New", profile_image := some "new.png",
      email := some "new@x.kr" } wKUser (by decide) (by decide)).1
    "New" "new.png" "new@x.kr" rfl (by decide) rfl (by decide) rfl (by decide)
    (by decide)
  have h2 := (kakao_callback_link_or_create emptyEcomDB "s" 9 "code" "atk"
    { id := 99, nickname := none, profile_image := none, email := none }
    wKUser (by decide) (by decide)).2 rfl (by decide)
  exact ⟨h1.trans (by decide), h2.trans (by decide)⟩

/-! ## C9: the callback only ever redirects -/

/-- A fallback default that is non-empty keeps a JS `x || d` non-empty. -/
theorem jsOr_ne_empty (v : Option String) (d : String) (hd : d ≠ "") :
    jsOr v d ≠ "" := by
  cases v with
  | none => simpa [jsOr] using hd
  | some s =>
    by_cases hs : s = "" <;> simp [jsOr, hs, hd]

/-- Mapping a guarded rewrite over a list touches nothing when the guard
holds nowhere in the list. -/
theorem map_if_id {α : Type} (l : List α) (p : α → Bool) (f : α → α)
    (h : ∀ a ∈ l, p a = false) :
    (l.map (fun a => if p a then f a else a)) = l := by
  calc (l.map (fun a => if p a then f a else a)) = l.map id :=
        List.map_congr_left (fun a ha => by simp [h a ha])
    _ = l := List.map_id l

/-- C9: the Kakao callback answers the user agent with a redirect on every
path — no input produces a raw JSON response — and each failure (missing
code, thrown token exchange, token response without access token, thrown
profile fetch) redirects to the login error route with a non-empty
human-readable message. -/
theorem kakao_callback_never_raw_json
    (db : EcomDB) (secret : String) (now : Nat) (code : Option String)
    (tokenExchange : Except String KakaoTokenData)
    (fetchProfile : String → Except String KakaoProfile) :
    ((kakaoCallback db secret now code tokenExchange fetchProfile).1.isRedirect = true)
    ∧ (jsTruthy code = false →
        (kakaoCallback db secret now code tokenExchange fetchProfile).1
          = .redirectLoginError "카카오 인증에 실패했습니다")
    ∧ (∀ e, jsTruthy code = true → tokenExchange = .error e →
        (kakaoCallback db secret now code tokenExchange fetchProfile).1
          = .redirectLoginError "카카오 로그인 처리 중 오류가 발생했습니다")
    ∧ (∀ td, jsTruthy code = true → tokenExchange = .ok td →
        jsTruthy td.access_token = false →
        (kakaoCallback db secret now code tokenExchange fetchProfile).1
          = .redirectLoginError (jsOr td.error_description "카카오 토큰 발급에 실패했습니다"))
    ∧ (∀ td e, jsTruthy code = true → tokenExchange = .ok td →
        jsTruthy td.access_token = true →
        fetchProfile (td.access_token.getD "") = .error e →
        (kakaoCallback db secret now code tokenExchange fetchProfile).1
          = .redirectLoginError "카카오 로그인 처리 중 오류가 발생했습니다")
    ∧ (∀ m, (kakaoCallback db secret now code tokenExchange fetchProfile).1
          = .redirectLoginError m → m ≠ "") := by
  refine ⟨?_, ?_, ?_, ?_, ?_, ?_⟩
  · unfold kakaoCallback
    repeat' split
    all_goals try rfl
    all_goals dsimp only
    all_goals repeat' split
    all_goals rfl
  · intro hfalse
    simp [kakaoCallback, hfalse]
  · intro e htrue herr
    simp [kakaoCallback, htrue, herr]
  · intro td htrue hok hat
    simp [kakaoCallback, htrue, hok, hat]
  · intro td e htrue hok hat hferr
    simp [kakaoCallback, htrue, hok, hat, hferr]
  · intro m hm
    revert hm
    unfold kakaoCallback
    repeat' split
    all_goals dsimp only
    all_goals repeat' split
    all_goals intro hm
    all_goals first
      | (cases hm; all_goals decide)
      | (cases hm; all_goals exact jsOr_ne_empty _ _ (by decide))

/-- Witness for C9: the four concrete failure shapes each redirect to the
login error route. -/
theorem kakao_callback_never_raw_json_witness :
    (kakaoCallback emptyEcomDB "s" 0 none (.ok { access_token := some "t", error_description := none }) (fun _ => .error "x")).1
        = .redirectLoginError "카카오 인증에 실패했습니다"
    ∧ (kakaoCallback emptyEcomDB "s" 0 (some "c") (.error "boom") (fun _ => .error "x")).1
        = .redirectLoginError "카카오 로그인 처리 중 오류가 발생했습니다"
    ∧ (kakaoCallback emptyEcomDB "s" 0 (some "c") (.ok { access_token := none, error_description := some "bad client" }) (fun _ => .error "x")).1
        = .redirectLoginError "bad client"
    ∧ (kakaoCallback emptyEcomDB "s" 0 (some "c") (.ok { access_token := some "t", error_description := none }) (fun _ => .error "x")).1
        = .redirectLoginError "카카오 로그인 처리 중 오류가 발생했습니다"
    ∧ ("bad client" ≠ "") := by
  have h1 := (kakao_callback_never_raw_json emptyEcomDB "s" 0 none
    (.ok { access_token := some "t", error_description := none }) (fun _ => .error "x")).2.1 rfl
  have h2 := (kakao_callback_never_raw_json emptyEcomDB "s" 0 (some "c")
    (.error "boom") (fun _ => .error "x")).2.2.1 "boom" rfl rfl
  have h3 := (kakao_callback_never_raw_json emptyEcomDB "s" 0 (some "c")
    (.ok { access_token := none, error_description := some "bad client" })
    (fun _ => .error "x")).2.2.2.1
    { access_token := none, error_description := some "bad client" } rfl rfl rfl
  have h4 := (kakao_callback_never_raw_json emptyEcomDB "s" 0 (some "c")
    (.ok { access_token := some "t", error_description := none })
    (fun _ => .error "x")).2.2.2.2.1
    { access_token := some "t", error_description := none } "x" rfl rfl rfl rfl
  have h5 := (kakao_callback_never_raw_json emptyEcomDB "s" 0 (some "c")
    (.ok { access_token := none, error_description := some "bad client" })
    (fun _ => .error "x")).2.2.2.2.2 "bad client" (h3.trans (by decide))
  exact ⟨h1, h2, h3.trans (by decide), h4, h5⟩

/-! ## C10: profile update for a vanished identity -/

/-- C10: a profile update carrying a valid token whose user row no longer
exists is not a 404 in either variant: the dangun handler answers the bare
success envelope (data dropped as `undefined`) and the ecommerce handler
crashes into its catch block and answers 500, and in both the store is left
unchanged. -/
theorem profile_update_vanished_user
    (ddb : DangunDB) (edb : EcomDB) (uid : Nat)
    (nickname loc email phone : Option String)
    (hd : ddb.users.find? (fun u => u.id == uid) = none)
    (he : edb.users.find? (fun u => u.id == uid) = none) :
    dangunUpdateProfile ddb uid nickname loc = (.okNoData, ddb)
    ∧ ecomUpdateProfile edb uid nickname email phone = (.err 500 "서버 오류", edb) := by
  have hd' : ∀ a ∈ ddb.users, (a.id == uid) = false := fun a ha => by
    simpa using List.find?_eq_none.mp hd a ha
  have he' : ∀ a ∈ edb.users, (a.id == uid) = false := fun a ha => by
    simpa using List.find?_eq_none.mp he a ha
  constructor
  · have hmap := map_if_id ddb.users (fun u => u.id == uid)
      (fun u => { u with nickname := sqlCoalesceS nickname u.nickname,
                         location := sqlCoalesceS loc u.location }) hd'
    simp only [dangunUpdateProfile, hd, hmap]
  · have hmap := map_if_id edb.users (fun u => u.id == uid)
      (fun u => { u with nickname := sqlCoalesceS nickname u.nickname,
                         email := sqlCoalesce email u.email,
                         phone := sqlCoalesce phone u.phone }) he'
    simp only [ecomUpdateProfile, he, hmap]

/-- Witness for C10: identity 99 holds a valid token but no row; dangun
answers the empty success envelope, ecommerce answers 500. -/
theorem profile_update_vanished_user_witness :
    dangunUpdateProfile { users := [wDUser], nextId := 2 } 99 (some "X") none
      = (.okNoData, { users := [wDUser], nextId := 2 })
    ∧ ecomUpdateProfile { users := [wEUser], nextId := 2 } 99 (some "X") none none
      = (.err 500 "서버 오류", { users := [wEUser], nextId := 2 }) :=
  profile_update_vanished_user
    { users := [wDUser], nextId := 2 } { users := [wEUser], nextId := 2 }
    99 (some "X") none none none (by decide) (by decide)
